import Mathlib

/-!
Verification development for the EHI (Extended Heat Index) engine of the
ehi-n-dashboard repository.  The relevant Python modules are shallowly
embedded over exact rationals:

* `src/pilotehi350.py` — physical equilibrium solver (`find_eqvar`), the
  root-finding machinery (`solve`, `auto_bracket_root`, `smart_bracket`,
  `solve_bisection`, `solve_advanced`, `safe_solve`), the inverse index
  solver (`find_T`) and the public entry point (`modifiedheatindex`).
* `src/scripts/ehi_lookup.py` — the runtime lookup table query engine
  (`get_ehi_zone`, `find_nearest`).

Conventions of the embedding:
* Python numbers become `ℚ`; float special values that actually occur
  (the `float('inf')` clothing resistance, the `np.nan` sentinel of
  `safe_solve`) are represented by `PyFloat`.
* Raised Python exceptions become the `Except PyErr` monad.  `SystemExit`
  is not a subclass of `Exception` in Python, so an `except Exception`
  handler is modelled by `PyErr.isException` and an `except SystemExit`
  handler by `PyErr.isSystemExit`.
* The transcendental pieces (the saturation vapour pressure `pvstar` and
  the DuBois surface area `A`, which use `exp` and non-integer powers)
  are parameters of the model, bundled in `Phys`; every theorem below is
  universally quantified over them.  `pvstar` itself is additionally
  embedded over `ℝ` (`PilotReal`) where its branch formulas are stated
  exactly.
* Rational division is total (`x / 0 = 0`); the Python code would raise
  `ZeroDivisionError` there.  No claim below depends on a division by
  zero and no concrete input used below performs one.
-/

/-- Python exception values that the embedded code can raise. -/
inductive PyErr where
  | typeError
  | valueError
  | sysExitBadBracket
  | sysExitMaxIter
  | rtNoBracket
  | rtNudgeFail
  | rtBisectMaxIter
  | rtMinimizeFail
  deriving DecidableEq

/-- Model of Python `except SystemExit`: only the two `SystemExit` raises of
the plain `solve` bisection routine match it. -/
def PyErr.isSystemExit : PyErr → Bool
  | .sysExitBadBracket => true
  | .sysExitMaxIter => true
  | _ => false

/-- Model of Python `except Exception`: `SystemExit` is not a subclass of
`Exception`, everything else raised here is. -/
def PyErr.isException (e : PyErr) : Bool := !e.isSystemExit

/-- A Python float as far as this code needs it: a finite rational, the
positive infinity produced by `float('inf')`, or the `np.nan` sentinel. -/
inductive PyFloat where
  | val (q : ℚ)
  | inf
  | nan
  deriving DecidableEq

/-- Sign as computed by `np.sign`: 1, -1 or 0. -/
def npSign (q : ℚ) : ℤ := if 0 < q then 1 else if q < 0 then -1 else 0

/-- Python 3 `round` to an integer: round half to even (banker's rounding). -/
def pyRound (q : ℚ) : ℤ :=
  let f := ⌊q⌋
  if q - f < 1/2 then f
  else if 1/2 < q - f then f + 1
  else if f % 2 = 0 then f else f + 1

/-- Python `int()` on a number: truncation toward zero. -/
def pyInt (q : ℚ) : ℤ := if 0 ≤ q then ⌊q⌋ else ⌈q⌉

/-- The value denoted by the one-decimal string `f"{q:.1f}"` used as a
dictionary key: the argument rounded to one decimal place. -/
def fmt1 (q : ℚ) : ℚ := (pyRound (q * 10) : ℚ) / 10

/-- `max lo (min hi x)`, the clamping pattern of the lookup engine. -/
def clampQ (lo hi x : ℚ) : ℚ := max lo (min hi x)

/-- Effectful list map mirroring a Python list comprehension: evaluate the
function on every element in order, propagating the first raised error. -/
def mapE (f : ℚ → Except PyErr ℚ) : List ℚ → Except PyErr (List ℚ)
  | [] => .ok []
  | x :: xs =>
    match f x with
    | .error e => .error e
    | .ok v =>
      match mapE f xs with
      | .error e => .error e
      | .ok vs => .ok (v :: vs)

/-- Lift a pure rational function into the error monad. -/
def liftE (f : ℚ → ℚ) : ℚ → Except PyErr ℚ := fun x => .ok (f x)

namespace Pilot

/- Thermodynamic constants of `pilotehi350.py` (exact decimal values). -/

def Ttrip : ℚ := 273.16
def ptrip : ℚ := 611.65
def E0v : ℚ := 2.3740e6
def E0s : ℚ := 0.3337e6
def rgasa : ℚ := 287.04
def rgasv : ℚ := 461
def cva : ℚ := 719
def cvv : ℚ := 1418
def cvl : ℚ := 4119
def cvs : ℚ := 1861
def cpa : ℚ := cva + rgasa
def cpv : ℚ := cvv + rgasv

/-- Latent heat of vaporization `Le(T)`. -/
def Le (T : ℚ) : ℚ := E0v + (cvv - cvl) * (T - Ttrip) + rgasv * T

/- Thermoregulatory constants. -/

def sigma : ℚ := 5.67e-8
def epsilon : ℚ := 0.97
def M : ℚ := 83.6
def H : ℚ := 1.69
def cpc : ℚ := 3492
def r : ℚ := 124
def Qr : ℚ := 180
def phi_salt : ℚ := 0.9
def Tc : ℚ := 310
def p : ℚ := 1.013e5
def eta : ℚ := 1.43e-6
def Pa0 : ℚ := 1.6e3
def Za : ℚ := 60.6 / 17.4
def Za_bar : ℚ := 60.6 / 11.6
def Za_un : ℚ := 60.6 / 12.3
def tol : ℚ := 1e-7
def tolT : ℚ := 1e-8
def maxIter : ℕ := 300
def L : ℚ := Le 310

/-- The transcendental inputs of the model, which the Python module computes
with `math.exp` and non-integer `**`: the saturation vapour pressure
function `pvstar` and the DuBois surface area
`A = 0.202 * M**0.425 * H**0.725`.  Everything downstream is exact rational
arithmetic in these two parameters. -/
structure Phys where
  pv : ℚ → ℚ
  A : ℚ
  deriving Inhabited

/-- Core vapour pressure `Pc = phi_salt * pvstar(Tc)`. -/
def Pc (phys : Phys) : ℚ := phi_salt * phys.pv Tc

/-- Body core heat capacity per area `C = M * cpc / A`. -/
def Cbody (phys : Phys) : ℚ := M * cpc / phys.A

/-- Solar heat gain `Qsolar(mrt) = mrt**4 * sigma * epsilon / A`. -/
def Qsolar (phys : Phys) (mrt : ℚ) : ℚ := mrt ^ 4 * sigma * epsilon / phys.A

/-- Respiratory heat loss `Qv(Ta, Pa, Qx)`. -/
def Qv (phys : Phys) (Ta Pa Qx : ℚ) : ℚ :=
  eta * Qx * (cpa * (Tc - Ta) + L * rgasa / (p * rgasv) * (Pc phys - Pa))

/-- Mass transfer resistance through skin `Zs(Rs)`. -/
def Zs (Rs : ℚ) : ℚ := if Rs = 0.0387 then 52.1 else 6.0e8 * Rs ^ 5

/-- Air heat transfer resistance, exposed skin. -/
def Ra (Ts Ta : ℚ) : ℚ :=
  1 / (17.4 + epsilon * 0.85 * sigma * (Ts ^ 2 + Ta ^ 2) * (Ts + Ta))

/-- Air heat transfer resistance, clothed skin. -/
def Ra_bar (Tf Ta : ℚ) : ℚ :=
  1 / (11.6 + epsilon * 0.79 * sigma * (Tf ^ 2 + Ta ^ 2) * (Tf + Ta))

/-- Air heat transfer resistance, naked skin. -/
def Ra_un (Ts Ta : ℚ) : ℚ :=
  1 / (12.3 + epsilon * 0.80 * sigma * (Ts ^ 2 + Ta ^ 2) * (Ts + Ta))

/-!  The plain bisection solver `solve` of `pilotehi350.py`.  It raises
`SystemExit('Wrong initial interval in the root solver')` when
`f(x1) * f(x2) > 0` and `SystemExit('Reaching maximum iteration in the root
solver')` on the last loop iteration.  With `maxIter = 0` the Python loop
body never runs and the function falls through returning `None`; that case
is the `.ok none` result below. -/

/-- Loop body of `solve`; the fuel is the number of remaining iterations of
`for i in range(maxIter)`. -/
def bisectLoop (f : ℚ → Except PyErr ℚ) (tol : ℚ) :
    ℕ → ℚ → ℚ → ℚ → ℚ → Except PyErr (Option ℚ)
  | 0, _, _, _, _ => .ok none
  | n + 1, a, b, fa, fb =>
    match f ((a + b) / 2) with
    | .error e => .error e
    | .ok fc =>
      if fb * fc > 0 then
        if |a - (a + b) / 2| < tol then .ok (some ((a + b) / 2))
        else if n = 0 then .error .sysExitMaxIter
        else bisectLoop f tol n a ((a + b) / 2) fa fc
      else
        if |(a + b) / 2 - b| < tol then .ok (some ((a + b) / 2))
        else if n = 0 then .error .sysExitMaxIter
        else bisectLoop f tol n ((a + b) / 2) b fc fb

/-- `solve(f, x1, x2, tol, maxIter)`: plain bisection, aborting with
`SystemExit` on a bracket without a sign change (`f(x1) * f(x2) > 0`). -/
def solve (f : ℚ → Except PyErr ℚ) (x1 x2 tol : ℚ) (maxIter : ℕ) :
    Except PyErr (Option ℚ) :=
  match f x1 with
  | .error e => .error e
  | .ok fa =>
    match f x2 with
    | .error e => .error e
    | .ok fb =>
      if fa * fb > 0 then .error .sysExitBadBracket
      else bisectLoop f tol maxIter x1 x2 fa fb

/-- `solve` as used by its callers, which treat the result as a number.
The `.ok none` fall-through (possible only when `maxIter = 0`) would make
the caller's first arithmetic operation on `None` raise a `TypeError`. -/
def solveE (f : ℚ → Except PyErr ℚ) (x1 x2 tol : ℚ) (maxIter : ℕ) :
    Except PyErr ℚ :=
  match solve f x1 x2 tol maxIter with
  | .error e => .error e
  | .ok (some c) => .ok c
  | .ok none => .error .typeError

/-- `np.linspace(Tmin, Tmax, N)`. -/
def linspace (a b : ℚ) (N : ℕ) : List ℚ :=
  (List.range N).map fun (i : ℕ) => a + (i : ℚ) * (b - a) / ((N : ℚ) - 1)

/-- The scan `for i in range(N-1): if np.sign(fvals[i]) != np.sign(fvals[i+1])`
over the sampled points paired with their values. -/
def scanPairs : List (ℚ × ℚ) → Except PyErr (ℚ × ℚ)
  | (x1, v1) :: (x2, v2) :: rest =>
    if npSign v1 ≠ npSign v2 then .ok (x1, x2) else scanPairs ((x2, v2) :: rest)
  | _ => .error .rtNoBracket

/-- `auto_bracket_root(f, Tmin, Tmax, N)`: sample the function on a uniform
grid (evaluating every point first, like the Python list comprehension) and
return the first adjacent sign change; raise `RuntimeError` otherwise. -/
def auto_bracket_root (f : ℚ → Except PyErr ℚ) (Tmin Tmax : ℚ) (N : ℕ) :
    Except PyErr (ℚ × ℚ) :=
  let Tvals := linspace Tmin Tmax N
  match mapE f Tvals with
  | .error e => .error e
  | .ok fvals => scanPairs (Tvals.zip fvals)

/-- Nudging loop of the second (shadowing) definition of `smart_bracket`,
which updates `a, fa` and `b, fb` each round. -/
def smart_bracket_loop (f : ℚ → Except PyErr ℚ) (nudge : ℚ) :
    ℕ → ℚ → ℚ → ℚ → ℚ → Except PyErr (ℚ × ℚ)
  | 0, _, _, _, _ => .error .rtNudgeFail
  | n + 1, a, b, fa, fb =>
    match f (a + nudge) with
    | .error e => .error e
    | .ok fa_new =>
      if npSign fa_new ≠ npSign fb then .ok (a + nudge, b)
      else
        match f (b - nudge) with
        | .error e => .error e
        | .ok fb_new =>
          if npSign fa ≠ npSign fb_new then .ok (a, b - nudge)
          else smart_bracket_loop f nudge n (a + nudge) (b - nudge) fa_new fb_new

/-- `smart_bracket(f, a, b, max_nudges, nudge_size)` (the later of the two
definitions in the file, which shadows the earlier one at runtime). -/
def smart_bracket (f : ℚ → Except PyErr ℚ) (a b : ℚ) (max_nudges : ℕ)
    (nudge : ℚ) : Except PyErr (ℚ × ℚ) :=
  match f a with
  | .error e => .error e
  | .ok fa =>
    match f b with
    | .error e => .error e
    | .ok fb =>
      if npSign fa ≠ npSign fb then .ok (a, b)
      else smart_bracket_loop f nudge max_nudges a b fa fb

/-- Loop of `solve_bisection`; raises `RuntimeError` when the iteration
budget is exhausted (for `maxIter = 0` the Python function would instead
fall through with `None`). -/
def solve_bisection_loop (f : ℚ → Except PyErr ℚ) (tol : ℚ) :
    ℕ → ℚ → ℚ → ℚ → ℚ → Except PyErr ℚ
  | 0, _, _, _, _ => .error .rtBisectMaxIter
  | n + 1, a, b, fa, fb =>
    match f ((a + b) / 2) with
    | .error e => .error e
    | .ok fc =>
      if npSign fc = npSign fa then
        if |(a + b) / 2 - b| < tol then .ok ((a + b) / 2)
        else solve_bisection_loop f tol n ((a + b) / 2) b fc fb
      else
        if |a - (a + b) / 2| < tol then .ok ((a + b) / 2)
        else solve_bisection_loop f tol n a ((a + b) / 2) fa fc

/-- `solve_bisection(f, a, b, tol, maxIter)`: raises `ValueError` when the
endpoints have the same sign (`f(a) * f(b) > 0`). -/
def solve_bisection (f : ℚ → Except PyErr ℚ) (a b tol : ℚ) (maxIter : ℕ) :
    Except PyErr ℚ :=
  match f a with
  | .error e => .error e
  | .ok fa =>
    match f b with
    | .error e => .error e
    | .ok fb =>
      if fa * fb > 0 then .error .valueError
      else solve_bisection_loop f tol maxIter a b fa fb

/-- The outcome reported by `scipy.optimize.minimize_scalar`. -/
structure MinResult where
  x : ℚ
  success : Bool
  deriving DecidableEq

/-- The bounded scalar minimizer is external library code; it is a parameter
of the model: given the objective, the bounds and the tolerance it reports a
point and a success flag (or propagates an error raised by the objective). -/
def MinOracle : Type :=
  (ℚ → Except PyErr ℚ) → ℚ → ℚ → ℚ → Except PyErr MinResult

/-- `solve_advanced(f, x1, x2, tol)`: minimize `f(T)**2`; accept the
minimizer point only when the minimizer reports success and the residual
`|f(x)|` is below the absolute threshold `1e-3`, else raise `RuntimeError`.
The Python `and` short-circuits, so `f` is re-evaluated at the point only
when `success` holds. -/
def solve_advanced (mo : MinOracle) (f : ℚ → Except PyErr ℚ)
    (x1 x2 tol : ℚ) : Except PyErr ℚ :=
  match mo (fun T => match f T with
                     | .error e => .error e
                     | .ok v => .ok (v ^ 2)) x1 x2 tol with
  | .error e => .error e
  | .ok res =>
    if res.success then
      match f res.x with
      | .error e => .error e
      | .ok fv => if |fv| < 1e-3 then .ok res.x else .error .rtMinimizeFail
    else .error .rtMinimizeFail

/-- The `try` block of `safe_solve`: automatic bracket search, bracket
nudging, then bisection. -/
def bracketChain (f : ℚ → Except PyErr ℚ) (Tmin Tmax tol : ℚ)
    (maxIter : ℕ) : Except PyErr ℚ :=
  match auto_bracket_root f Tmin Tmax 5000 with
  | .error e => .error e
  | .ok ab =>
    match smart_bracket f ab.1 ab.2 3 5 with
    | .error e => .error e
    | .ok ab2 => solve_bisection f ab2.1 ab2.2 tol maxIter

/-- `safe_solve(f, Tmin, Tmax, tol, maxIter)`: run the bracket chain; on any
`Exception` fall back to `solve_advanced`; if that also raises an
`Exception`, return `np.nan` as an ordinary value.  `SystemExit` raised by
`f` itself is caught by neither handler and propagates. -/
def safe_solve (mo : MinOracle) (f : ℚ → Except PyErr ℚ)
    (Tmin Tmax tol : ℚ) (maxIter : ℕ) : Except PyErr PyFloat :=
  match bracketChain f Tmin Tmax tol maxIter with
  | .ok T => .ok (.val T)
  | .error e =>
    if e.isException then
      match solve_advanced mo f Tmin Tmax tol with
      | .ok T => .ok (.val T)
      | .error e2 => if e2.isException then .ok .nan else .error e2
    else .error e

/-- The equilibrium variable name returned as the first element of
`find_eqvar`'s result list. -/
inductive EqvarName where
  | phi
  | Rf
  | Rs
  | RsStar
  | dTcdt
  deriving DecidableEq

/-- The result list `[eqvar_name, phi, Rf, Rs, dTcdt]` of `find_eqvar`.
`Rf` is a `PyFloat` because Region I stores `float('inf')` there. -/
structure EqState where
  name : EqvarName
  phi : ℚ
  Rf : PyFloat
  Rs : ℚ
  dTcdt : ℚ
  deriving DecidableEq

/-- The tail of the Region V branch of `find_eqvar` (source lines 138-144):
after re-solving the skin temperature under maximum sweating, recompute the
skin resistance; if it falls below the physiological minimum `0.004`, clamp
it there, switch the equilibrium variable to `dTcdt = (1/C) * flux3` and
thereby promote the state to Region VI. -/
def regimeVstep (phys : Phys) (Ta Pa Qmet Qs flux3 Ts5 : ℚ) : EqState :=
  let Rs5 := (Tc - Ts5) / ((Qmet + Qs) - Qv phys Ta Pa Qmet)
  if Rs5 < 0.004 then
    ⟨.dTcdt, 0.84, .val 0, 0.004, 1 / Cbody phys * flux3⟩
  else
    ⟨.RsStar, 0.84, .val 0, Rs5, 0⟩

/-- `find_eqvar(Ta, RH, Qmet, Qs)`: classify the physiological regime and
compute the equilibrium variables.  Any `SystemExit` raised by a nested
`solve` propagates. -/
def find_eqvar (phys : Phys) (Ta RH Qmet Qs : ℚ) : Except PyErr EqState :=
  let Pa := RH * phys.pv Ta
  let Rs0 : ℚ := 0.0387
  let phi0 : ℚ := 0.84
  let m := (Pc phys - Pa) / (Zs Rs0 + Za)
  let m_bar := (Pc phys - Pa) / (Zs Rs0 + Za_bar)
  match solveE (fun Ts => .ok ((Ts - Ta) / Ra Ts Ta + (Pc phys - Pa) / (Zs Rs0 + Za) - (Tc - Ts) / Rs0))
      (max 0 (min Tc Ta - Rs0 * |m|)) (max Tc Ta + Rs0 * |m|) tol maxIter with
  | .error e => .error e
  | .ok Ts =>
    match solveE (fun Tf => .ok ((Tf - Ta) / Ra_bar Tf Ta + (Pc phys - Pa) / (Zs Rs0 + Za_bar) - (Tc - Tf) / Rs0))
        (max 0 (min Tc Ta - Rs0 * |m_bar|)) (max Tc Ta + Rs0 * |m_bar|) tol maxIter with
    | .error e => .error e
    | .ok Tf =>
      let flux1 := (Qmet + Qs) - Qv phys Ta Pa Qmet - (1 - phi0) * (Tc - Ts) / Rs0
      let flux2 := (Qmet + Qs) - Qv phys Ta Pa Qmet - (1 - phi0) * (Tc - Ts) / Rs0 - phi0 * (Tc - Tf) / Rs0
      if flux1 ≤ 0 then
        .ok ⟨.phi, 1 - ((Qmet + Qs) - Qv phys Ta Pa Qmet) * Rs0 / (Tc - Ts), .inf, Rs0, 0⟩
      else if flux2 ≤ 0 then
        let Ts_bar := Tc - ((Qmet + Qs) - Qv phys Ta Pa Qmet) * Rs0 / phi0 + (1 / phi0 - 1) * (Tc - Ts)
        match solveE (fun Tf2 => .ok ((Tf2 - Ta) / Ra_bar Tf2 Ta + (Pc phys - Pa) * (Tf2 - Ta) / ((Zs Rs0 + Za_bar) * (Tf2 - Ta) + r * Ra_bar Tf2 Ta * (Ts_bar - Tf2)) - (Tc - Ts_bar) / Rs0))
            Ta Ts_bar tol maxIter with
        | .error e => .error e
        | .ok Tf3 =>
          .ok ⟨.Rf, phi0, .val (Ra_bar Tf3 Ta * (Ts_bar - Tf3) / (Tf3 - Ta)), Rs0, 0⟩
      else
        let flux3 := (Qmet + Qs) - eta * (Qmet + Qs) * (cpa * (Tc - Ta) + L * rgasa / (rgasv * p) * (Pc phys - Pa)) - 0.80 * epsilon * sigma * (Tc ^ 4 - Ta ^ 4) - 12.3 * (Tc - Ta) - (Pc phys - Pa) / Za_un
        if flux3 < 0 then
          match solveE (fun Ts2 => .ok ((Ts2 - Ta) / Ra_un Ts2 Ta + (Pc phys - Pa) / (Zs ((Tc - Ts2) / ((Qmet + Qs) - Qv phys Ta Pa Qmet)) + Za_un) - ((Qmet + Qs) - Qv phys Ta Pa Qmet)))
              0 Tc tol maxIter with
          | .error e => .error e
          | .ok Ts3 =>
            let Rs3 := (Tc - Ts3) / ((Qmet + Qs) - Qv phys Ta Pa Qmet)
            let Ps := Pc phys - (Pc phys - Pa) * Zs Rs3 / (Zs Rs3 + Za_un)
            if Ps > phi_salt * phys.pv Ts3 then
              match solveE (fun Ts4 => .ok ((Ts4 - Ta) / Ra_un Ts4 Ta + (phi_salt * phys.pv Ts4 - Pa) / Za_un - ((Qmet + Qs) - Qv phys Ta Pa Qmet)))
                  0 Tc tol maxIter with
              | .error e => .error e
              | .ok Ts5 => .ok (regimeVstep phys Ta Pa Qmet Qs flux3 Ts5)
            else
              .ok ⟨.Rs, phi0, .val 0, Rs3, 0⟩
        else
          .ok ⟨.dTcdt, phi0, .val 0, 0.004, 1 / Cbody phys * flux3⟩

/-- The region label returned by `find_T`. -/
inductive Region where
  | I
  | II
  | III
  | IV
  | V
  | VI
  deriving DecidableEq

/-- The finite value of a `PyFloat` where the code only ever uses its sign:
`solve` consumes objective values exclusively through products compared
with 0, so the positive infinity that Region I stores in the `Rf` slot is
represented by a positive rational proxy with the same sign behaviour
(`inf * 0 = nan` in floats and `proxy * 0 = 0` both fail a `> 0` test). -/
def pfToQ : PyFloat → ℚ
  | .val q => q
  | .inf => 10 ^ 100
  | .nan => 0

/-- `float` subtraction `x - e` for the objective of the `Rf` inversion;
`inf - e` stays positive infinity. -/
def pfMinusQ (x : PyFloat) (e : ℚ) : ℚ :=
  match x with
  | .val q => q - e
  | .inf => 10 ^ 100
  | .nan => 0

/-- The `try/except SystemExit` block of the Region VI branch of `find_T`:
automatic bracket search on `[330, 400]` with `N = 1000`, bracket nudging,
then the plain `solve`. -/
def regimeVIchain (f : ℚ → Except PyErr ℚ) : Except PyErr ℚ :=
  match auto_bracket_root f 330 400 1000 with
  | .error e => .error e
  | .ok ab =>
    match smart_bracket f ab.1 ab.2 3 5 with
    | .error e => .error e
    | .ok ab2 => solveE f ab2.1 ab2.2 tolT maxIter

/-- Region VI inversion of `find_T`: only a `SystemExit` escaping the try
block is caught and answered with `solve_advanced(f, 330, 400, tolT)`; a
`RuntimeError` from the bracket search or the nudging propagates. -/
def find_T_dTcdt (mo : MinOracle) (f : ℚ → Except PyErr ℚ) :
    Except PyErr (PyFloat × Region) :=
  match regimeVIchain f with
  | .ok T => .ok (.val T, .VI)
  | .error e =>
    if e.isSystemExit then
      match solve_advanced mo f 330 400 tolT with
      | .ok T => .ok (.val T, .VI)
      | .error e2 => .error e2
    else .error e

/-- `find_T(eqvar_name, eqvar)`: invert the forward solver under the
reference scenario (`RH` profile per regime, metabolic rate `Qr`, no solar
gain). -/
def find_T (phys : Phys) (mo : MinOracle) (name : EqvarName) (eqvar : ℚ) :
    Except PyErr (PyFloat × Region) :=
  match name with
  | .phi =>
    match solveE (fun T => match find_eqvar phys T 1 Qr 0 with
        | .error e => .error e
        | .ok st => .ok (st.phi - eqvar)) 0 400 tolT maxIter with
    | .error e => .error e
    | .ok T => .ok (.val T, .I)
  | .Rf =>
    match solveE (fun T => match find_eqvar phys T (min 1 (Pa0 / phys.pv T)) Qr 0 with
        | .error e => .error e
        | .ok st => .ok (pfMinusQ st.Rf eqvar)) 230 500 tolT maxIter with
    | .error e => .error e
    | .ok T => .ok (.val T, if Pa0 > phys.pv T then .II else .III)
  | .Rs =>
    match safe_solve mo (fun T => match find_eqvar phys T (Pa0 / phys.pv T) Qr 0 with
        | .error e => .error e
        | .ok st => .ok (st.Rs - eqvar)) 295 500 1e-8 1000 with
    | .error e => .error e
    | .ok pf => .ok (pf, .IV)
  | .RsStar =>
    match safe_solve mo (fun T => match find_eqvar phys T (Pa0 / phys.pv T) Qr 0 with
        | .error e => .error e
        | .ok st => .ok (st.Rs - eqvar)) 295 500 1e-8 1000 with
    | .error e => .error e
    | .ok pf => .ok (pf, .V)
  | .dTcdt =>
    find_T_dTcdt mo (fun T => match find_eqvar phys T (Pa0 / phys.pv T) Qr 0 with
        | .error e => .error e
        | .ok st => .ok (st.dTcdt - eqvar))

/-- The dictionary dispatch `{"phi": 1, "Rf": 2, "Rs": 3, "Rs*": 3,
"dTcdt": 4}` selecting the equilibrium value from the result list.  When
the name is `Rf` the stored resistance is always finite (`pfToQ` is the
identity there); the `inf`/`nan` cases of `pfToQ` are unreachable. -/
def selectEqvar (st : EqState) : ℚ :=
  match st.name with
  | .phi => st.phi
  | .Rf => pfToQ st.Rf
  | .Rs => st.Rs
  | .RsStar => st.Rs
  | .dTcdt => st.dTcdt

/-- Forward solve followed by the inversion — the computation
`modifiedheatindex` performs before its zero-temperature override. -/
def heatPipeline (phys : Phys) (mo : MinOracle) (Ta RH Qmet mrt : ℚ) :
    Except PyErr (PyFloat × Region) :=
  match find_eqvar phys Ta RH Qmet (Qsolar phys mrt) with
  | .error e => .error e
  | .ok st => find_T phys mo st.name (selectEqvar st)

/-- `modifiedheatindex(Ta, RH, Qmet, mrt)`: run the forward solver and the
inversion, then overwrite the result with 0 when `Ta == 0`.  The override
sits after both solver stages, so their raised errors propagate. -/
def modifiedheatindex (phys : Phys) (mo : MinOracle) (Ta RH Qmet mrt : ℚ) :
    Except PyErr PyFloat :=
  match heatPipeline phys mo Ta RH Qmet mrt with
  | .error e => .error e
  | .ok Tr => .ok (if Ta = 0 then .val 0 else Tr.1)

end Pilot

namespace PilotReal

/-- Triple point temperature (K). -/
noncomputable def Ttrip : ℝ := 273.16
/-- Saturation vapour pressure at the triple point (Pa). -/
noncomputable def ptrip : ℝ := 611.65
noncomputable def E0v : ℝ := 2.3740e6
noncomputable def E0s : ℝ := 0.3337e6
noncomputable def rgasv : ℝ := 461
noncomputable def cvv : ℝ := 1418
noncomputable def cvl : ℝ := 4119
noncomputable def cvs : ℝ := 1861
noncomputable def cpv : ℝ := cvv + rgasv

/-- The ice-phase branch expression of `pvstar` (taken for `0 < T < Ttrip`). -/
noncomputable def pvstarIce (T : ℝ) : ℝ :=
  ptrip * (T / Ttrip) ^ ((cpv - cvs) / rgasv) *
    Real.exp ((E0v + E0s - (cvv - cvs) * Ttrip) / rgasv * (1 / Ttrip - 1 / T))

/-- The liquid-phase branch expression of `pvstar` (taken for `T ≥ Ttrip`). -/
noncomputable def pvstarLiquid (T : ℝ) : ℝ :=
  ptrip * (T / Ttrip) ^ ((cpv - cvl) / rgasv) *
    Real.exp ((E0v - (cvv - cvl) * Ttrip) / rgasv * (1 / Ttrip - 1 / T))

/-- `pvstar(T)`: 0 at `T = 0`, ice branch below the triple point, liquid
branch at and above it. -/
noncomputable def pvstar (T : ℝ) : ℝ :=
  if T = 0 then 0
  else if T < Ttrip then pvstarIce T
  else pvstarLiquid T

end PilotReal

namespace Lookup

/-- A Python value that is either an `int` or the decimal string `str(n)`
of an integer — the two shapes the humidity key takes in the lookup code.
`_find_nearest` binds `rh_key = str(round(rh_percent))`, a string, and
later computes `rh_key - offset`. -/
inductive PyVal where
  | int (n : ℤ)
  | str (n : ℤ)
  deriving DecidableEq

/-- Python `-` on a key and an integer offset: defined for `int`, raises
`TypeError` for `str`. -/
def pyvSub : PyVal → ℤ → Except PyErr PyVal
  | .int n, m => .ok (.int (n - m))
  | .str _, _ => .error .typeError

/-- Python `+` on a key and an integer offset: defined for `int`, raises
`TypeError` for `str`. -/
def pyvAdd : PyVal → ℤ → Except PyErr PyVal
  | .int n, m => .ok (.int (n + m))
  | .str _, _ => .error .typeError

/-- Python `str(x)` of a key; string keys of integers are modelled by the
integer they print. -/
def pyvStr : PyVal → ℤ
  | .int n => n
  | .str n => n

/-- One temperature row of a table: integer humidity keys mapped to
`[ehi, zone]` leaves. -/
abbrev RhRow : Type := List (ℤ × (ℚ × ℤ))

/-- The `data` object of a table: one-decimal temperature keys mapped to
humidity rows. -/
abbrev GridData : Type := List (ℚ × List (ℤ × (ℚ × ℤ)))

/-- The `metadata` object of a table. -/
structure Metadata where
  temp_min_c : ℚ
  temp_max_c : ℚ
  temp_step_c : ℚ
  rh_min_pct : ℚ
  rh_max_pct : ℚ
  rh_step_pct : ℚ
  deriving DecidableEq

/-- One loaded lookup table. -/
structure Table where
  metadata : Metadata
  data : GridData
  deriving DecidableEq

/-- Sun condition of a table key. -/
inductive Sun where
  | shade
  | sun
  deriving DecidableEq

/-- The `self.tables` dictionary: `met{level}_{sun}` keys to tables. -/
abbrev Tables : Type := List ((ℤ × Sun) × Table)

/-- Membership/lookup in a humidity row (`rh_key in data[temp_key]`). -/
def lookupRow : List (ℤ × (ℚ × ℤ)) → ℤ → Option (ℚ × ℤ)
  | [], _ => none
  | e :: rest, k => if e.1 = k then some e.2 else lookupRow rest k

/-- Membership/lookup of a temperature key (`temp_key in data`). -/
def lookupGrid : GridData → ℚ → Option (List (ℤ × (ℚ × ℤ)))
  | [], _ => none
  | e :: rest, k => if e.1 = k then some e.2 else lookupGrid rest k

/-- Lookup of a `met{level}_{sun}` key in the loaded tables. -/
def lookupTables : Tables → ℤ × Sun → Option Table
  | [], _ => none
  | e :: rest, k => if e.1 = k then some e.2 else lookupTables rest k

/-- The humidity offset loop of `_find_nearest`:
`for offset in range(1, 10): for rh_try in [rh_key - offset, rh_key + offset]`.
Python materialises the two-element list first, so `rh_key - offset` is
evaluated before any membership test of the round. -/
def nearestLoop (row : List (ℤ × (ℚ × ℤ))) (rh_key : PyVal) :
    List ℤ → Except PyErr (Option ℚ × ℤ)
  | [] => .ok (none, 0)
  | offset :: rest =>
    match pyvSub rh_key offset with
    | .error e => .error e
    | .ok lo =>
      match pyvAdd rh_key offset with
      | .error e => .error e
      | .ok hi =>
        match lookupRow row (pyvStr lo) with
        | some v => .ok (some v.1, v.2)
        | none =>
          match lookupRow row (pyvStr hi) with
          | some v => .ok (some v.1, v.2)
          | none => nearestLoop row rh_key rest

/-- `_find_nearest(data, temp_c, rh_percent)`: coarse half-step temperature
key, then the exact humidity key, then the outward offset search; falls
through to the `(None, 0)` sentinel.  `rh_key` is the *string*
`str(round(rh_percent))`. -/
def find_nearest (data : GridData) (temp_c rh_percent : ℚ) :
    Except PyErr (Option ℚ × ℤ) :=
  let temp_key := fmt1 ((pyRound (temp_c * 2) : ℚ) / 2)
  let rh_key : PyVal := .str (pyRound rh_percent)
  match lookupGrid data temp_key with
  | none => .ok (none, 0)
  | some row =>
    match lookupRow row (pyvStr rh_key) with
    | some v => .ok (some v.1, v.2)
    | none => nearestLoop row rh_key [1, 2, 3, 4, 5, 6, 7, 8, 9]

/-- `get_ehi_zone(temp_c, rh_percent, met_level, sun)`: raise `ValueError`
when no table is loaded for the key; otherwise clamp to the table bounds,
snap to the grid steps, look up the exact key and fall back to
`_find_nearest` on a miss. -/
def get_ehi_zone (tables : Tables) (temp_c rh_percent : ℚ) (met_level : ℤ)
    (sunc : Sun) : Except PyErr (Option ℚ × ℤ) :=
  match lookupTables tables (met_level, sunc) with
  | none => .error .valueError
  | some table =>
    let md := table.metadata
    let t1 := clampQ md.temp_min_c md.temp_max_c temp_c
    let rh1 := clampQ md.rh_min_pct md.rh_max_pct rh_percent
    let temp_rounded := (pyRound (t1 / md.temp_step_c) : ℚ) * md.temp_step_c
    let rh_rounded : ℤ := pyInt ((pyRound (rh1 / md.rh_step_pct) : ℚ) * md.rh_step_pct)
    let temp_key := fmt1 temp_rounded
    match lookupGrid table.data temp_key with
    | some row =>
      match lookupRow row rh_rounded with
      | some v => .ok (some v.1, v.2)
      | none => find_nearest table.data t1 rh1
    | none => find_nearest table.data t1 rh1

end Lookup

instance {ε α : Type} [DecidableEq ε] [DecidableEq α] :
    DecidableEq (Except ε α) := fun x y =>
  match x, y with
  | .ok a, .ok b =>
    if h : a = b then isTrue (by rw [h])
    else isFalse fun hh => h (Except.ok.inj hh)
  | .error a, .error b =>
    if h : a = b then isTrue (by rw [h])
    else isFalse fun hh => h (Except.error.inj hh)
  | .ok _, .error _ => isFalse fun hh => Except.noConfusion hh
  | .error _, .ok _ => isFalse fun hh => Except.noConfusion hh

/-- Whether an `Except` result is a normal (non-raising) return. -/
def isOkE {α : Type} : Except PyErr α → Bool
  | .ok _ => true
  | .error _ => false

namespace Pilot

/-- A concrete parameter assignment used for concrete evaluations below:
the vapour pressure function is identically zero and the surface area is 2.
Every universally quantified theorem above it holds for this instance in
particular. -/
def phys0 : Phys := ⟨fun _ => 0, 2⟩

/-- A concrete minimizer oracle: reports the lower bound as the minimizer
and success, without evaluating the objective. -/
def mo0 : MinOracle := fun _ x1 _ _ => .ok ⟨x1, true⟩

/-- The constant objective 1: it has no sign change anywhere, so every
bracket search on it fails. -/
def f1 : ℚ → Except PyErr ℚ := fun _ => .ok 1

/-- The constant objective 0: any point has residual 0. -/
def fz : ℚ → Except PyErr ℚ := fun _ => .ok 0

/-- An objective that raises `SystemExit` at every point, as the nested
`solve` calls inside `find_eqvar` can. -/
def f4 : ℚ → Except PyErr ℚ := fun _ => .error .sysExitMaxIter

end Pilot

namespace Lookup

/-- A humidity row holding only the key 50. -/
def row35 : RhRow := [(50, (38, 4))]

/-- Grid data with a single temperature row at key 35.0. -/
def data35 : GridData := [(35, row35)]

/-- Metadata of the spec's example grid: temperature 20..50 step 0.5,
humidity 0..100 step 5. -/
def md0 : Metadata := ⟨20, 50, 0.5, 0, 100, 5⟩

/-- A table whose 35.0 row lacks the humidity key 60. -/
def tbl35 : Table := ⟨md0, data35⟩

/-- Loaded tables holding `tbl35` under `met4_shade`. -/
def tables35 : Tables := [((4, .shade), tbl35)]

/-- Grid data holding only the upper boundary cell (50.0, 100). -/
def dataB : GridData := [(50, [(100, (61, 6))])]

/-- A table holding only its upper boundary cell. -/
def tblB : Table := ⟨md0, dataB⟩

/-- Loaded tables holding `tblB` under `met6_shade`. -/
def tablesB : Tables := [((6, .shade), tblB)]

end Lookup

/-! ### Helper lemmas -/

lemma mapE_constOk (c : ℚ) (l : List ℚ) :
    mapE (fun _ => .ok c) l = .ok (l.map fun _ => c) := by
  induction l with
  | nil => rfl
  | cons x xs ih => simp [mapE, ih]

lemma mapE_constErr (e : PyErr) (l : List ℚ) (h : l ≠ []) :
    mapE (fun _ => .error e) l = .error e := by
  cases l with
  | nil => exact absurd rfl h
  | cons x xs => rfl

lemma zip_map_const (c : ℚ) (l : List ℚ) :
    l.zip (l.map fun _ => c) = l.map fun x => (x, c) := by
  induction l with
  | nil => rfl
  | cons x xs ih => simp only [List.map_cons, List.zip_cons_cons, ih]

lemma scanPairs_const (c : ℚ) (l : List ℚ) :
    Pilot.scanPairs (l.map fun x => (x, c)) = .error .rtNoBracket := by
  induction l with
  | nil => rfl
  | cons x xs ih =>
    cases xs with
    | nil => rfl
    | cons y ys =>
      simp only [List.map_cons] at ih ⊢
      rw [show Pilot.scanPairs ((x, c) :: (y, c) :: ys.map fun z => (z, c)) =
          if npSign c ≠ npSign c then .ok (x, y)
          else Pilot.scanPairs ((y, c) :: ys.map fun z => (z, c)) from rfl]
      rw [if_neg (by simp)]
      exact ih

lemma auto_bracket_root_constOk (c Tmin Tmax : ℚ) (N : ℕ) :
    Pilot.auto_bracket_root (fun _ => .ok c) Tmin Tmax N = .error .rtNoBracket := by
  simp only [Pilot.auto_bracket_root, mapE_constOk, zip_map_const]
  exact scanPairs_const c _

lemma linspace_ne_nil (a b : ℚ) (N : ℕ) (h : N ≠ 0) :
    Pilot.linspace a b N ≠ [] := by
  intro hnil
  apply h
  have hlen := congrArg List.length hnil
  rwa [Pilot.linspace, List.length_map, List.length_range, List.length_nil]
    at hlen

lemma auto_bracket_root_constErr (e : PyErr) (Tmin Tmax : ℚ) (N : ℕ)
    (h : N ≠ 0) :
    Pilot.auto_bracket_root (fun _ => .error e) Tmin Tmax N = .error e := by
  simp only [Pilot.auto_bracket_root,
    mapE_constErr e _ (linspace_ne_nil Tmin Tmax N h)]

lemma bracketChain_constOk (c Tmin Tmax tol : ℚ) (n : ℕ) :
    Pilot.bracketChain (fun _ => .ok c) Tmin Tmax tol n = .error .rtNoBracket := by
  unfold Pilot.bracketChain
  rw [auto_bracket_root_constOk]

lemma regimeVIchain_constOk (c : ℚ) :
    Pilot.regimeVIchain (fun _ => .ok c) = .error .rtNoBracket := by
  unfold Pilot.regimeVIchain
  rw [auto_bracket_root_constOk]

lemma regimeVIchain_f4 :
    Pilot.regimeVIchain Pilot.f4 = .error .sysExitMaxIter := by
  unfold Pilot.regimeVIchain Pilot.f4
  rw [auto_bracket_root_constErr _ _ _ _ (by norm_num)]

lemma abs_half_left (a b : ℚ) : |a - (a + b) / 2| = |a - b| / 2 := by
  rw [show a - (a + b) / 2 = (a - b) / 2 by ring, abs_div]
  norm_num

lemma abs_half_right (a b : ℚ) : |(a + b) / 2 - b| = |a - b| / 2 := by
  rw [show (a + b) / 2 - b = (a - b) / 2 by ring, abs_div]
  norm_num

lemma bisectLoop_liftE_cases (f : ℚ → ℚ) (tol : ℚ) :
    ∀ (n : ℕ) (a b fa fb : ℚ),
      (∃ c, Pilot.bisectLoop (liftE f) tol n a b fa fb = .ok (some c) ∧
        ∃ x y, c = (x + y) / 2 ∧ |x - y| / 2 < tol) ∨
      Pilot.bisectLoop (liftE f) tol n a b fa fb = .ok none ∨
      Pilot.bisectLoop (liftE f) tol n a b fa fb = .error .sysExitMaxIter := by
  intro n
  induction n with
  | zero => intro a b fa fb; exact Or.inr (Or.inl rfl)
  | succ n ih =>
    intro a b fa fb
    rw [show Pilot.bisectLoop (liftE f) tol (n + 1) a b fa fb =
        (if fb * f ((a + b) / 2) > 0 then
          if |a - (a + b) / 2| < tol then
            (.ok (some ((a + b) / 2)) : Except PyErr (Option ℚ))
          else if n = 0 then .error .sysExitMaxIter
          else Pilot.bisectLoop (liftE f) tol n a ((a + b) / 2) fa (f ((a + b) / 2))
        else
          if |(a + b) / 2 - b| < tol then .ok (some ((a + b) / 2))
          else if n = 0 then .error .sysExitMaxIter
          else Pilot.bisectLoop (liftE f) tol n ((a + b) / 2) b (f ((a + b) / 2)) fb)
      from rfl]
    by_cases h1 : fb * f ((a + b) / 2) > 0
    · rw [if_pos h1]
      by_cases h2 : |a - (a + b) / 2| < tol
      · rw [if_pos h2]
        refine Or.inl ⟨(a + b) / 2, rfl, a, b, rfl, ?_⟩
        rwa [abs_half_left] at h2
      · rw [if_neg h2]
        by_cases h3 : n = 0
        · rw [if_pos h3]; exact Or.inr (Or.inr rfl)
        · rw [if_neg h3]; exact ih a ((a + b) / 2) fa (f ((a + b) / 2))
    · rw [if_neg h1]
      by_cases h2 : |(a + b) / 2 - b| < tol
      · rw [if_pos h2]
        refine Or.inl ⟨(a + b) / 2, rfl, a, b, rfl, ?_⟩
        rwa [abs_half_right] at h2
      · rw [if_neg h2]
        by_cases h3 : n = 0
        · rw [if_pos h3]; exact Or.inr (Or.inr rfl)
        · rw [if_neg h3]; exact ih ((a + b) / 2) b (f ((a + b) / 2)) fb

lemma clampQ_idem (lo hi x : ℚ) :
    clampQ lo hi (clampQ lo hi x) = clampQ lo hi x := by
  unfold clampQ
  rcases le_total (min hi x) lo with h | h
  · rw [max_eq_left h]
    rcases le_total hi lo with h2 | h2
    · rw [min_eq_left h2, max_eq_left h2]
    · rw [min_eq_right h2, max_self]
  · rw [max_eq_right h, ← min_assoc, min_self, max_eq_right h]

/-! ### Claim theorems -/

/-- Claim C6 (counterexample): the plain bisection solver does not fail
whenever `sign(f(a)) = sign(f(b))`.  With the zero function both endpoint
signs are equal (`np.sign 0 = np.sign 0`), yet `solve` accepts the bracket
(its test is `f(a) * f(b) > 0`, and `0 * 0 > 0` is false) and returns the
midpoint `1/2` instead of raising the bad-bracket `SystemExit`. -/
theorem solve_equal_sign_zero_counterexample :
    npSign ((fun _ : ℚ => (0 : ℚ)) 0) = npSign ((fun _ : ℚ => (0 : ℚ)) 1) ∧
    Pilot.solve (liftE fun _ => (0 : ℚ)) 0 1 1 300 = .ok (some (1 / 2)) := by
  constructor
  · rfl
  · with_unfolding_all decide

/-- Claim C6 (amended): `solve(f, x1, x2, tol, maxIter)` fails with the
bad-bracket `SystemExit` exactly when `f(x1) * f(x2) > 0` (equal *nonzero*
signs; a zero endpoint is accepted), surfaced before any iteration; and any
value it returns is the midpoint of a bisection interval whose half-width
is below `tol`. -/
theorem solve_bracket_contract (f : ℚ → ℚ) (x1 x2 tol : ℚ) (n : ℕ) :
    (Pilot.solve (liftE f) x1 x2 tol n = .error .sysExitBadBracket ↔
      f x1 * f x2 > 0) ∧
    (∀ c, Pilot.solve (liftE f) x1 x2 tol n = .ok (some c) →
      ∃ x y, c = (x + y) / 2 ∧ |x - y| / 2 < tol) := by
  have hred : Pilot.solve (liftE f) x1 x2 tol n =
      if f x1 * f x2 > 0 then .error .sysExitBadBracket
      else Pilot.bisectLoop (liftE f) tol n x1 x2 (f x1) (f x2) := rfl
  constructor
  · constructor
    · intro h
      by_contra hgt
      rw [hred, if_neg hgt] at h
      rcases bisectLoop_liftE_cases f tol n x1 x2 (f x1) (f x2) with
        ⟨c, hc, _⟩ | h2 | h2
      · rw [hc] at h; exact absurd h (by simp)
      · rw [h2] at h; exact absurd h (by simp)
      · rw [h2] at h; exact absurd h (by simp)
    · intro hgt
      rw [hred, if_pos hgt]
  · intro c hc
    rw [hred] at hc
    by_cases hgt : f x1 * f x2 > 0
    · rw [if_pos hgt] at hc; exact absurd hc (by simp)
    · rw [if_neg hgt] at hc
      rcases bisectLoop_liftE_cases f tol n x1 x2 (f x1) (f x2) with
        ⟨d, hd, x, y, hxy, hlt⟩ | h2 | h2
      · rw [hd] at hc
        have hdc : d = c := by simpa using hc
        exact ⟨x, y, hdc ▸ hxy, hlt⟩
      · rw [h2] at hc; exact absurd hc (by simp)
      · rw [h2] at hc; exact absurd hc (by simp)

/-- Claim C6 (witness): a concrete run of both halves of the contract.
`f(x) = x - 1` on `[0, 2]` has `f(0) * f(2) = -1 ≤ 0`, converges at the
first midpoint 1, and that midpoint satisfies the interval bound. -/
theorem solve_bracket_contract_witness :
    Pilot.solve (liftE fun x => x - 1) 0 2 2 300 = .ok (some 1) ∧
    ∃ x y, (1 : ℚ) = (x + y) / 2 ∧ |x - y| / 2 < 2 := by
  constructor
  · with_unfolding_all decide
  · exact (solve_bracket_contract (fun x => x - 1) 0 2 2 300).2 1
      (by with_unfolding_all decide)

/-- Claim C2 (counterexample): when the bracket chain and the minimization
fallback both fail, `safe_solve` does not raise a `RootFindingFailed`-style
error; it returns `np.nan` as an ordinary value.  With the constant
objective 1 the automatic bracket search finds no sign change, and the
minimizer's point has residual `|1| ≥ 1e-3`, so `solve_advanced` raises
`RuntimeError` — which `safe_solve` catches, returning `nan` normally. -/
theorem safe_solve_nan_counterexample :
    Pilot.safe_solve Pilot.mo0 Pilot.f1 270 1000 1e-8 1000 = .ok .nan ∧
    Pilot.solve_advanced Pilot.mo0 Pilot.f1 270 1000 1e-8 =
      .error .rtMinimizeFail := by
  have hchain : Pilot.bracketChain Pilot.f1 270 1000 1e-8 1000 =
      .error .rtNoBracket := bracketChain_constOk 1 270 1000 1e-8 1000
  constructor
  · unfold Pilot.safe_solve
    rw [hchain]
    with_unfolding_all decide
  · with_unfolding_all decide

/-- Claim C2 (amended): whenever the bracket chain (automatic bracket
search, nudging, bisection) of `safe_solve` raises an `Exception`, the
chain falls back to scalar minimization of `f(T)^2`; the minimizer's point
is accepted exactly when the minimizer reports success and the residual
`|f(x)|` is below the absolute threshold `1e-3`; when the fallback fails,
`safe_solve` catches the failure and returns `nan` as a normal value
instead of raising. -/
theorem safe_solve_fallback_contract :
    (∀ (mo : Pilot.MinOracle) (f : ℚ → Except PyErr ℚ)
        (Tmin Tmax tol : ℚ) (maxIter : ℕ) (e : PyErr),
      Pilot.bracketChain f Tmin Tmax tol maxIter = .error e →
      e.isException = true →
      Pilot.safe_solve mo f Tmin Tmax tol maxIter =
        match Pilot.solve_advanced mo f Tmin Tmax tol with
        | .ok T => .ok (.val T)
        | .error e2 => if e2.isException then .ok .nan else .error e2) ∧
    (∀ (mo : Pilot.MinOracle) (f : ℚ → Except PyErr ℚ) (x1 x2 tol x : ℚ),
      Pilot.solve_advanced mo f x1 x2 tol = .ok x →
      ∃ res fv,
        mo (fun T => match f T with
                     | .error e => .error e
                     | .ok v => .ok (v ^ 2)) x1 x2 tol = .ok res ∧
        res.success = true ∧ x = res.x ∧ f res.x = .ok fv ∧ |fv| < 1e-3) := by
  constructor
  · intro mo f Tmin Tmax tol maxIter e hchain hexc
    unfold Pilot.safe_solve
    rw [hchain]
    dsimp only
    rw [hexc]
    simp
  · intro mo f x1 x2 tol x h
    unfold Pilot.solve_advanced at h
    cases hmo : mo (fun T => match f T with
                             | .error e => .error e
                             | .ok v => .ok (v ^ 2)) x1 x2 tol with
    | error e => rw [hmo] at h; dsimp only at h; exact absurd h (by simp)
    | ok res =>
      rw [hmo] at h
      dsimp only at h
      cases hsucc : res.success with
      | false =>
        rw [hsucc] at h
        simp only [Bool.false_eq_true, if_false] at h
        exact absurd h (by simp)
      | true =>
        rw [hsucc] at h
        simp only [if_true] at h
        cases hf : f res.x with
        | error e => rw [hf] at h; exact absurd h (by simp)
        | ok fv =>
          rw [hf] at h
          dsimp only at h
          by_cases hlt : |fv| < 1e-3
          · rw [if_pos hlt] at h
            have hx : res.x = x := by simpa using h
            exact ⟨res, fv, rfl, hsucc, hx.symm, hf, hlt⟩
          · rw [if_neg hlt] at h; exact absurd h (by simp)

/-- Claim C2 (witness): both halves of the contract at concrete inputs —
the constant-1 objective exercises the fallback equation, and the
constant-0 objective exercises a successful acceptance (residual 0). -/
theorem safe_solve_fallback_contract_witness :
    (Pilot.safe_solve Pilot.mo0 Pilot.f1 270 1000 1e-8 1000 =
      match Pilot.solve_advanced Pilot.mo0 Pilot.f1 270 1000 1e-8 with
      | .ok T => .ok (.val T)
      | .error e2 => if e2.isException then .ok .nan else .error e2) ∧
    (∃ res fv,
      Pilot.mo0 (fun T => match Pilot.fz T with
                          | .error e => .error e
                          | .ok v => .ok (v ^ 2)) 270 1000 1e-8 = .ok res ∧
      res.success = true ∧ (270 : ℚ) = res.x ∧ Pilot.fz res.x = .ok fv ∧
      |fv| < 1e-3) := by
  constructor
  · exact safe_solve_fallback_contract.1 Pilot.mo0 Pilot.f1 270 1000 1e-8 1000
      .rtNoBracket (bracketChain_constOk 1 270 1000 1e-8 1000) rfl
  · exact safe_solve_fallback_contract.2 Pilot.mo0 Pilot.fz 270 1000 1e-8 270
      (by with_unfolding_all decide)

/-- Claim C5 (counterexample): the Regime VI inversion does not route every
bracket-chain error into the minimization fallback.  With the constant
objective 1 the automatic bracket search raises `RuntimeError` (no sign
change found); `find_T`'s Regime VI branch catches only `SystemExit`, so
that error propagates to the caller — had the fallback been invoked on
this objective it would instead have ended in `rtMinimizeFail`. -/
theorem find_T_dTcdt_propagates_counterexample :
    Pilot.find_T_dTcdt Pilot.mo0 Pilot.f1 = .error .rtNoBracket ∧
    Pilot.solve_advanced Pilot.mo0 Pilot.f1 330 400 Pilot.tolT =
      .error .rtMinimizeFail := by
  have hchain : Pilot.regimeVIchain Pilot.f1 = .error .rtNoBracket :=
    regimeVIchain_constOk 1
  constructor
  · unfold Pilot.find_T_dTcdt
    rw [hchain]
    with_unfolding_all decide
  · with_unfolding_all decide

/-- Claim C5 (amended): the Regime VI inversion of `find_T` invokes the
minimization fallback exactly for `SystemExit` errors escaping its try
block (those raised by the plain `solve`, including nested solver calls
inside the objective); every non-`SystemExit` error — in particular the
`RuntimeError`s of the automatic bracket search and of the bracket
nudging — propagates to the caller unchanged. -/
theorem find_T_dTcdt_catches_only_SystemExit :
    ∀ (mo : Pilot.MinOracle) (f : ℚ → Except PyErr ℚ) (e : PyErr),
      Pilot.regimeVIchain f = .error e →
      (e.isSystemExit = false → Pilot.find_T_dTcdt mo f = .error e) ∧
      (e.isSystemExit = true →
        Pilot.find_T_dTcdt mo f =
          match Pilot.solve_advanced mo f 330 400 Pilot.tolT with
          | .ok T => .ok (.val T, .VI)
          | .error e2 => .error e2) := by
  intro mo f e hchain
  constructor
  · intro hb
    unfold Pilot.find_T_dTcdt
    rw [hchain]
    dsimp only
    rw [hb]
    simp
  · intro hb
    unfold Pilot.find_T_dTcdt
    rw [hchain]
    dsimp only
    rw [hb]
    simp

/-- Claim C5 (witness): with an objective that raises `SystemExit` at every
point (as a nested `find_eqvar` bisection can), the chain's error is a
`SystemExit`, the theorem's fallback equation applies, and the fallback
itself re-raises that same `SystemExit` through the objective. -/
theorem find_T_dTcdt_SystemExit_witness :
    Pilot.find_T_dTcdt Pilot.mo0 Pilot.f4 = .error .sysExitMaxIter := by
  have h := (find_T_dTcdt_catches_only_SystemExit Pilot.mo0 Pilot.f4
    .sysExitMaxIter regimeVIchain_f4).2 rfl
  rw [h]
  with_unfolding_all decide

/-- When both bracket endpoints coincide at a root of `f`, `solve` returns
that point after a single iteration. -/
lemma solve_self (f : ℚ → Except PyErr ℚ) (x tol : ℚ) (n : ℕ)
    (hf : f x = .ok 0) (htol : 0 < tol) (hn : n ≠ 0) :
    Pilot.solve f x x tol n = .ok (some x) := by
  obtain ⟨m, rfl⟩ := Nat.exists_eq_succ_of_ne_zero hn
  unfold Pilot.solve
  rw [hf]
  dsimp only
  rw [if_neg (by norm_num)]
  rw [Pilot.bisectLoop, add_self_div_two, hf]
  dsimp only
  rw [if_neg (by norm_num), sub_self, abs_zero, if_pos htol]

/-- `solveE` version of `solve_self`. -/
lemma solveE_self (f : ℚ → Except PyErr ℚ) (x tol : ℚ) (n : ℕ)
    (hf : f x = .ok 0) (htol : 0 < tol) (hn : n ≠ 0) :
    Pilot.solveE f x x tol n = .ok x := by
  unfold Pilot.solveE
  rw [solve_self f x tol n hf htol hn]

/-- Concrete evaluation of the forward solver for `phys0` at
`Ta = Tc = 310`, `RH = 0`, `Qmet = 180`, `Qs = 0`: with `pv = 0` every
vapour pressure vanishes, both nested bisections start on the degenerate
bracket `[310, 310]` and return at once, all three fluxes equal
`Qmet = 180 > 0`, and the solver lands in Region VI. -/
lemma solveE_self_310 (f : ℚ → Except PyErr ℚ) (hf : f 310 = .ok 0) :
    Pilot.solveE f 310 310 Pilot.tol Pilot.maxIter = .ok 310 :=
  solveE_self f 310 Pilot.tol Pilot.maxIter hf (by norm_num [Pilot.tol])
    (by norm_num [Pilot.maxIter])

lemma find_eqvar_phys0_at310 :
    Pilot.find_eqvar Pilot.phys0 310 0 180 0 =
      .ok ⟨.dTcdt, 0.84, .val 0, 0.004,
        1 / Pilot.Cbody Pilot.phys0 * 180⟩ := by
  delta Pilot.find_eqvar
  norm_num [Pilot.phys0, Pilot.Pc, Pilot.phi_salt, Pilot.Tc, max_eq_right,
    min_self, max_self]
  rw [solveE_self_310]
  swap
  · norm_num
  dsimp only
  rw [solveE_self_310]
  swap
  · norm_num
  dsimp only
  norm_num [Pilot.Qv, Pilot.Pc, Pilot.phys0, Pilot.Tc]

/-- Claim C4: on every input on which the forward solver returns, the first
element of its result is exactly one of the five equilibrium-variable
names `phi`, `Rf`, `Rs`, `Rs*`, `dTcdt` — each return site of `find_eqvar`
sets precisely one of them. -/
theorem find_eqvar_name_partition :
    ∀ (phys : Pilot.Phys) (Ta RH Qmet Qs : ℚ) (st : Pilot.EqState),
      Pilot.find_eqvar phys Ta RH Qmet Qs = .ok st →
      st.name = .phi ∨ st.name = .Rf ∨ st.name = .Rs ∨
        st.name = .RsStar ∨ st.name = .dTcdt := by
  intro phys Ta RH Qmet Qs st _
  cases h : st.name
  · exact Or.inl rfl
  · exact Or.inr (Or.inl rfl)
  · exact Or.inr (Or.inr (Or.inl rfl))
  · exact Or.inr (Or.inr (Or.inr (Or.inl rfl)))
  · exact Or.inr (Or.inr (Or.inr (Or.inr rfl)))

/-- Claim C4 (witness): a concrete run of the forward solver (at
`Ta = Tc = 310`, where both nested bisections converge at once) returns
normally, and the theorem yields its name disjunction. -/
theorem find_eqvar_name_partition_witness :
    ∃ st, Pilot.find_eqvar Pilot.phys0 310 0 180 0 = .ok st ∧
      (st.name = .phi ∨ st.name = .Rf ∨ st.name = .Rs ∨
        st.name = .RsStar ∨ st.name = .dTcdt) :=
  ⟨⟨.dTcdt, 0.84, .val 0, 0.004, 1 / Pilot.Cbody Pilot.phys0 * 180⟩,
    find_eqvar_phys0_at310,
    find_eqvar_name_partition Pilot.phys0 310 0 180 0 _ find_eqvar_phys0_at310⟩

/-- Claim C8: in the maximum-sweating branch, when the re-solved skin
resistance falls below the physiological minimum `0.004`, the returned
state has `Rs` clamped to exactly `0.004`, equilibrium variable `dTcdt`,
and `dTcdt = flux3 / C`. -/
theorem regimeVstep_promotes_to_VI :
    ∀ (phys : Pilot.Phys) (Ta Pa Qmet Qs flux3 Ts5 : ℚ),
      (Pilot.Tc - Ts5) / ((Qmet + Qs) - Pilot.Qv phys Ta Pa Qmet) < 0.004 →
      Pilot.regimeVstep phys Ta Pa Qmet Qs flux3 Ts5 =
        ⟨.dTcdt, 0.84, .val 0, 0.004, flux3 / Pilot.Cbody phys⟩ := by
  intro phys Ta Pa Qmet Qs flux3 Ts5 h
  unfold Pilot.regimeVstep
  rw [if_pos h, one_div_mul_eq_div]

/-- Claim C8 (witness): a concrete promotion (re-solved `Rs = 0`, below the
minimum). -/
theorem regimeVstep_promotes_witness :
    Pilot.regimeVstep Pilot.phys0 310 0 1 0 7 310 =
      ⟨.dTcdt, 0.84, .val 0, 0.004, 7 / Pilot.Cbody Pilot.phys0⟩ :=
  regimeVstep_promotes_to_VI Pilot.phys0 310 0 1 0 7 310
    (by with_unfolding_all decide)

/-- Claim C3: the `Ta == 0` override of `modifiedheatindex` sits after the
forward solve and the inversion.  At `Ta = 0` the call returns index 0
exactly when that pipeline returns at all; a solver error raised before
the override (see the failing input in the report) propagates instead of
being replaced by 0. -/
theorem modifiedheatindex_zero_override :
    ∀ (phys : Pilot.Phys) (mo : Pilot.MinOracle) (RH Qmet mrt : ℚ),
      Pilot.modifiedheatindex phys mo 0 RH Qmet mrt =
        match Pilot.heatPipeline phys mo 0 RH Qmet mrt with
        | .ok _ => .ok (.val 0)
        | .error e => .error e := by
  intro phys mo RH Qmet mrt
  unfold Pilot.modifiedheatindex
  cases Pilot.heatPipeline phys mo 0 RH Qmet mrt <;> simp

/-- Claim C9: the saturation vapour pressure returns 0 at `T = 0`, and the
ice-phase and liquid-phase branch expressions both evaluate to `ptrip` at
the triple-point temperature, so `pvstar` is continuous across the branch
boundary. -/
theorem pvstar_zero_and_triple_continuity :
    PilotReal.pvstar 0 = 0 ∧
    PilotReal.pvstarIce PilotReal.Ttrip = PilotReal.ptrip ∧
    PilotReal.pvstarLiquid PilotReal.Ttrip = PilotReal.ptrip ∧
    PilotReal.pvstar PilotReal.Ttrip = PilotReal.ptrip := by
  have hT : PilotReal.Ttrip ≠ 0 := by
    unfold PilotReal.Ttrip; norm_num
  have hice : PilotReal.pvstarIce PilotReal.Ttrip = PilotReal.ptrip := by
    unfold PilotReal.pvstarIce
    rw [div_self hT, Real.one_rpow, sub_self, mul_zero, Real.exp_zero,
      mul_one, mul_one]
  have hliq : PilotReal.pvstarLiquid PilotReal.Ttrip = PilotReal.ptrip := by
    unfold PilotReal.pvstarLiquid
    rw [div_self hT, Real.one_rpow, sub_self, mul_zero, Real.exp_zero,
      mul_one, mul_one]
  refine ⟨?_, hice, hliq, ?_⟩
  · unfold PilotReal.pvstar
    rw [if_pos rfl]
  · unfold PilotReal.pvstar
    rw [if_neg hT, if_neg (lt_irrefl _)]
    exact hliq

/-- Claim C1: the nearest-neighbour fallback of the lookup engine raises
`TypeError` instead of performing the humidity offset search: its `rh_key`
is the string `str(round(rh_percent))`, and the first offset round
computes `rh_key - offset` on that string.  Concretely, with a table whose
35.0 row lacks humidity key 60, the query (35, 60) reaches the fallback
and raises instead of returning a match or the `(None, 0)` sentinel. -/
theorem find_nearest_raises_TypeError :
    Lookup.get_ehi_zone Lookup.tables35 35 60 4 .shade = .error .typeError ∧
    Lookup.find_nearest Lookup.data35 35 60 = .error .typeError := by
  constructor
  · with_unfolding_all decide
  · with_unfolding_all decide

/-- Claim C7: out-of-bounds lookup queries return exactly what the query at
the clamped boundary values returns (the engine clamps before keying, and
clamping is idempotent), and querying the same point twice returns
identical results. -/
theorem get_ehi_zone_clamp_idempotent :
    ∀ (tables : Lookup.Tables) (temp_c rh_percent : ℚ) (met : ℤ)
      (sunc : Lookup.Sun) (tbl : Lookup.Table),
      Lookup.lookupTables tables (met, sunc) = some tbl →
      (temp_c < tbl.metadata.temp_min_c ∨
        tbl.metadata.temp_max_c < temp_c ∨
        rh_percent < tbl.metadata.rh_min_pct ∨
        tbl.metadata.rh_max_pct < rh_percent) →
      Lookup.get_ehi_zone tables temp_c rh_percent met sunc =
        Lookup.get_ehi_zone tables
          (clampQ tbl.metadata.temp_min_c tbl.metadata.temp_max_c temp_c)
          (clampQ tbl.metadata.rh_min_pct tbl.metadata.rh_max_pct rh_percent)
          met sunc ∧
      Lookup.get_ehi_zone tables temp_c rh_percent met sunc =
        Lookup.get_ehi_zone tables temp_c rh_percent met sunc := by
  intro tables t rh met sunc tbl ht _hout
  refine ⟨?_, rfl⟩
  unfold Lookup.get_ehi_zone
  rw [ht]
  dsimp only
  rw [clampQ_idem, clampQ_idem]

/-- Claim C7 (witness): the spec's boundary scenario — querying (51, 105)
against a 20..50 × 0..100 table clamps to (50, 100) and returns the stored
boundary value. -/
theorem get_ehi_zone_clamp_witness :
    Lookup.get_ehi_zone Lookup.tablesB 51 105 6 .shade =
      Lookup.get_ehi_zone Lookup.tablesB (clampQ 20 50 51) (clampQ 0 100 105)
        6 .shade ∧
    Lookup.get_ehi_zone Lookup.tablesB 51 105 6 .shade = .ok (some 61, 6) := by
  constructor
  · exact (get_ehi_zone_clamp_idempotent Lookup.tablesB 51 105 6 .shade
      Lookup.tblB (by with_unfolding_all decide)
      (Or.inr (Or.inl (by with_unfolding_all decide)))).1
  · with_unfolding_all decide

/-- Claim C10: when no table was loaded for the requested
(met level, sun condition) pair, `get_ehi_zone` raises `ValueError`
immediately — it does not return the soft `(None, 0)` sentinel used for
missing grid cells. -/
theorem get_ehi_zone_missing_table_raises :
    ∀ (tables : Lookup.Tables) (t rh : ℚ) (met : ℤ) (sunc : Lookup.Sun),
      Lookup.lookupTables tables (met, sunc) = none →
      Lookup.get_ehi_zone tables t rh met sunc = .error .valueError := by
  intro tables t rh met sunc h
  unfold Lookup.get_ehi_zone
  rw [h]

/-- Claim C10 (witness): with no tables loaded at all, a query raises
`ValueError`. -/
theorem get_ehi_zone_missing_table_witness :
    Lookup.get_ehi_zone [] 30 50 3 .sun = .error .valueError :=
  get_ehi_zone_missing_table_raises [] 30 50 3 .sun rfl
